import Mathlib

/-!
Shallow embedding of the rhino-backend FastAPI service (src/api/index.py)
and proofs about its HTTP surface.

The service exposes three endpoints: a constant health-check root handler
(read_root), an item lookup handler (read_item) with an integer path
parameter and an optional query parameter, and a generation endpoint
(generate_content_endpoint) that forwards a prompt to an external
generative model. Responses are JSON values; Python dicts are modelled as
insertion-ordered association lists. The external model call is abstracted
as a function from the configured client, a model identifier and a prompt
string to either a generated text or an exception message string
(the stringification str(e) of the raised exception).
-/

namespace RhinoBackend

/-- JSON values, with objects as insertion-ordered association lists
(matching Python dict semantics in the source). -/
inductive Json where
  | null : Json
  | bool (b : Bool) : Json
  | num (n : Int) : Json
  | str (s : String) : Json
  | arr (xs : List Json) : Json
  | obj (kvs : List (String × Json)) : Json
  deriving Repr

/-- First-match lookup in an association list of JSON object fields. -/
def lookupField : List (String × Json) → String → Option Json
  | [], _ => none
  | (k, v) :: rest, key => if k = key then some v else lookupField rest key

/-- Field lookup on a JSON value: only objects have fields. -/
def jlookup : Json → String → Option Json
  | Json.obj kvs, key => lookupField kvs key
  | _, _ => none

/-- The keys of a JSON object, in order; empty for non-objects. -/
def objKeys : Json → List String
  | Json.obj kvs => kvs.map Prod.fst
  | _ => []

/-- An HTTP response: status code and JSON body. -/
structure HttpResponse where
  status : Nat
  body : Json
  deriving Repr

/-- Python truthiness of an optional string: None and the empty string are
falsy, every other string is truthy. This is the semantics of the source
checks `if not api_key` and `if query_param`. -/
def truthy : Option String → Bool
  | none => false
  | some s => !s.isEmpty

/-- The request body model of POST /generate (class PromptRequest in the
source): a single required string field named prompt. -/
structure PromptRequest where
  prompt : String
  deriving Repr

/-- The external API client configured by genai.configure(api_key=...):
process-wide state holding the credential. -/
structure GenaiClient where
  api_key : String
  deriving Repr

/-- The application value produced by a successful module initialisation:
the FastAPI app together with the configured client. -/
structure App where
  client : GenaiClient
  deriving Repr

/-- The message of the ValueError raised at startup when the key is
missing (src/api/index.py line 41). -/
def api_key_error_message : String :=
  "GEMINI_API_KEY environment variable not set. Please create a .env file and add your key."

/-- Module-level startup of src/api/index.py: read GEMINI_API_KEY from the
environment; if it is falsy (unset or empty) raise ValueError before the
app can be served, otherwise configure the genai client with that key
exactly once. The environment variable is modelled as an Option String and
a raised startup exception as Except.error, so no App value (and hence no
listening server) exists on the error path. -/
def module_init (env_gemini_api_key : Option String) : Except String App :=
  let api_key := env_gemini_api_key
  if truthy api_key then
    Except.ok { client := { api_key := api_key.getD "" } }
  else
    Except.error api_key_error_message

/-- Handler of GET / (read_root in the source): a constant payload. -/
def read_root_response : HttpResponse :=
  { status := 200
    body := Json.obj [("message", Json.str "Hello from FastAPI Backend! Gemini is ready.")] }

/-- Handler of GET /items/\x7bitem_id\x7d (read_item in the source): build
a dict with item_id and the formatted description, then append the
query_param field only when query_param is truthy. -/
def read_item (item_id : Int) (query_param : Option String) : Json :=
  let item_data := [("item_id", Json.num item_id),
                    ("description", Json.str ("This is item number " ++ toString item_id))]
  if truthy query_param then
    Json.obj (item_data ++ [("query_param", Json.str (query_param.getD ""))])
  else
    Json.obj item_data

/-- The behaviour of the upstream generative-language API, abstracted as a
function of the configured client, the model identifier string passed to
genai.GenerativeModel, and the prompt. Except.ok t is a response whose
text attribute is t; Except.error e is any exception raised during model
construction, invocation or text extraction, carrying str(e). -/
def Upstream : Type :=
  GenaiClient → String → String → Except String String

/-- Handler of POST /generate (generate_content_endpoint in the source):
inside try, construct the model with the fixed identifier
gemini-2.5-flash, invoke it on the prompt taken from the validated body,
extract the text and return 200 with a text field; on any exception return
500 with an error field holding str(e). -/
def generate_content_endpoint (gen : Upstream) (client : GenaiClient)
    (request_body : PromptRequest) : HttpResponse :=
  match gen client "gemini-2.5-flash" request_body.prompt with
  | Except.ok generated_text =>
      { status := 200, body := Json.obj [("text", Json.str generated_text)] }
  | Except.error e =>
      { status := 500, body := Json.obj [("error", Json.str e)] }

/-- The 422 response produced by the FastAPI/Pydantic validation layer
when a request fails schema validation before the handler runs. -/
def validation_error_response : HttpResponse :=
  { status := 422, body := Json.obj [("detail", Json.str "validation error")] }

/-- The schema validation FastAPI performs for the PromptRequest body
model: the body must be a JSON object whose prompt field is present and is
a string; anything else is rejected before the handler runs. -/
def validate_prompt_request (body : Json) : Option PromptRequest :=
  match body with
  | Json.obj kvs =>
      match lookupField kvs "prompt" with
      | some (Json.str s) => some { prompt := s }
      | _ => none
  | _ => none

/-- The POST /generate route as seen from the wire: schema validation of
the body first (422 on failure, without touching the upstream), then the
handler. -/
def post_generate (gen : Upstream) (client : GenaiClient) (body : Json) : HttpResponse :=
  match validate_prompt_request body with
  | none => validation_error_response
  | some req => generate_content_endpoint gen client req

/-- Parsing of the item_id path segment as an integer, as the framework
layer does for the `item_id : int` parameter: an optional sign followed by
at least one decimal digit. -/
def parse_digits : List Char → Option Nat
  | [] => none
  | cs =>
      if cs.all Char.isDigit then
        some (cs.foldl (fun acc c => acc * 10 + (c.toNat - 48)) 0)
      else
        none

/-- Parse a path segment into an integer, or fail. -/
def parse_int_segment (s : String) : Option Int :=
  match s.data with
  | [] => none
  | c :: rest =>
      if c = '-' then (parse_digits rest).map (fun n => -(n : Int))
      else if c = '+' then (parse_digits rest).map (fun n => (n : Int))
      else (parse_digits (c :: rest)).map (fun n => (n : Int))

/-- The GET /items/\x7bitem_id\x7d route as seen from the wire: the
framework parses the path segment as an integer (422 on failure, before
the handler logic runs), then calls read_item. -/
def get_items (segment : String) (query_param : Option String) : HttpResponse :=
  match parse_int_segment segment with
  | none => validation_error_response
  | some item_id => { status := 200, body := read_item item_id query_param }

/-- An inbound HTTP request to one of the three routes. -/
inductive Request where
  | root : Request
  | items (segment : String) (query_param : Option String) : Request
  | generate (body : Json) : Request

/-- Dispatch one request against the app. The handlers hold no mutable
state, so the app value is returned unchanged alongside the response. -/
def dispatch (gen : Upstream) (a : App) : Request → HttpResponse × App
  | Request.root => (read_root_response, a)
  | Request.items seg q => (get_items seg q, a)
  | Request.generate body => (post_generate gen a.client body, a)

/-- Process a list of requests in order, threading the app state. -/
def process_all (gen : Upstream) (a : App) (history : List Request) : App :=
  history.foldl (fun s r => (dispatch gen s r).2) a

/-- Helper: a nonempty string is truthy. -/
theorem truthy_some_of_ne {s : String} (h : s ≠ "") : truthy (some s) = true := by
  simp [truthy, Bool.eq_false_iff, String.isEmpty_iff, h]

/-- Claim C8: GET / always returns HTTP 200 with the fixed payload
message field set to Hello from FastAPI Backend! Gemini is ready.,
regardless of prior request history: after processing any history of
requests, the root response is the same fixed value and the app state is
unchanged, so any two invocations return identical responses. -/
theorem root_constant_response (gen : Upstream) (a : App) (history : List Request) :
    dispatch gen (process_all gen a history) Request.root =
      ({ status := 200,
         body := Json.obj [("message",
           Json.str "Hello from FastAPI Backend! Gemini is ready.")] },
       process_all gen a history) := rfl

/-- Claim C4: for every integer item_id the GET /items response has a
description field equal to the string This is item number followed by the
rendered item_id, and the items handler has no side effects (the app state
is returned unchanged by dispatch). -/
theorem read_item_description (item_id : Int) (query_param : Option String)
    (gen : Upstream) (a : App) (seg : String) :
    jlookup (read_item item_id query_param) "description" =
      some (Json.str ("This is item number " ++ toString item_id)) ∧
    (dispatch gen a (Request.items seg query_param)).2 = a := by
  refine ⟨?_, rfl⟩
  cases hq : truthy query_param <;>
    simp [read_item, jlookup, lookupField, hq]

/-- Claim C10: for every integer item_id (including zero and negatives)
the GET /items response object has exactly the keys item_id and
description, plus query_param exactly when the supplied query_param is
truthy, and its item_id field is the path parameter unchanged. -/
theorem read_item_exact_keys (item_id : Int) (query_param : Option String) :
    objKeys (read_item item_id query_param) =
      (if truthy query_param then ["item_id", "description", "query_param"]
       else ["item_id", "description"]) ∧
    jlookup (read_item item_id query_param) "item_id" = some (Json.num item_id) := by
  constructor <;> cases hq : truthy query_param <;>
    simp [read_item, objKeys, jlookup, lookupField, hq]

/-- Claim C3: for every nonempty string X supplied as query_param, the
GET /items response echoes it unchanged in a query_param field; when the
parameter is omitted the field is absent, and (the code treating falsy and
missing identically) supplying the empty string also omits the field, so
the field is never present as null or empty. -/
theorem read_item_query_param_echo (item_id : Int) (x : String) (hx : x ≠ "") :
    jlookup (read_item item_id (some x)) "query_param" = some (Json.str x) ∧
    jlookup (read_item item_id none) "query_param" = none ∧
    jlookup (read_item item_id (some "")) "query_param" = none := by
  refine ⟨?_, rfl, rfl⟩
  simp [read_item, jlookup, lookupField, truthy_some_of_ne hx]

/-- Witness for C3 at item_id 7 with query_param abc. -/
theorem read_item_query_param_echo_witness :
    jlookup (read_item 7 (some "abc")) "query_param" = some (Json.str "abc") ∧
    jlookup (read_item 7 none) "query_param" = none ∧
    jlookup (read_item 7 (some "")) "query_param" = none :=
  read_item_query_param_echo 7 "abc" (by decide)

/-- Claim C7: a GET /items request whose path segment does not parse as an
integer is rejected with a 422 validation error before the read_item
handler logic runs; the response is the fixed validation error, so no
handler output is produced. -/
theorem items_non_integer_rejected (seg : String) (q : Option String)
    (h : parse_int_segment seg = none) :
    get_items seg q = validation_error_response ∧
    (get_items seg q).status = 422 := by
  have hmain : get_items seg q = validation_error_response := by
    simp [get_items, h]
  exact ⟨hmain, by rw [hmain]; rfl⟩

/-- Witness for C7 at the path segment abc. -/
theorem items_non_integer_rejected_witness :
    get_items "abc" none = validation_error_response ∧
    (get_items "abc" none).status = 422 :=
  items_non_integer_rejected "abc" none rfl

/-- Claim C6: a POST /generate body rejected by schema validation (not an
object with a string-typed prompt field) yields the fixed 422 validation
response for every upstream behaviour and client, so the upstream client
is never invoked (the outcome is independent of it). -/
theorem generate_validation_rejects_before_upstream (body : Json)
    (h : validate_prompt_request body = none) :
    (∀ (gen : Upstream) (client : GenaiClient),
       post_generate gen client body = validation_error_response) ∧
    (∀ (gen gen2 : Upstream) (c c2 : GenaiClient),
       post_generate gen c body = post_generate gen2 c2 body) ∧
    (∀ (gen : Upstream) (client : GenaiClient),
       (post_generate gen client body).status = 422) := by
  have hmain : ∀ (gen : Upstream) (client : GenaiClient),
      post_generate gen client body = validation_error_response := by
    intro gen client
    simp [post_generate, h]
  exact ⟨hmain, fun gen gen2 c c2 => by rw [hmain, hmain],
         fun gen client => by rw [hmain]; rfl⟩

/-- Witness for C6 at a body missing the prompt field. -/
theorem generate_validation_rejects_witness :
    post_generate (fun _ _ _ => Except.ok "w") { api_key := "k" } (Json.obj []) =
      validation_error_response ∧
    (post_generate (fun _ _ _ => Except.ok "w") { api_key := "k" } (Json.obj [])).status
      = 422 := by
  have h := generate_validation_rejects_before_upstream (Json.obj []) rfl
  exact ⟨h.1 _ _, h.2.2 _ _⟩

/-- Claim C2: on a valid body with prompt p, when the upstream call on the
fixed model identifier gemini-2.5-flash with p passed verbatim succeeds
with text t, POST /generate returns HTTP 200 with body exactly the object
with text field t. -/
theorem generate_success_path (gen : Upstream) (client : GenaiClient) (p t : String)
    (h : gen client "gemini-2.5-flash" p = Except.ok t) :
    post_generate gen client (Json.obj [("prompt", Json.str p)]) =
      { status := 200, body := Json.obj [("text", Json.str t)] } := by
  simp [post_generate, validate_prompt_request, lookupField,
        generate_content_endpoint, h]

/-- Witness for C2: a mocked upstream returning world for the prompt
hello yields 200 with text world. -/
theorem generate_success_path_witness :
    post_generate (fun _ _ _ => Except.ok "world") { api_key := "k" }
        (Json.obj [("prompt", Json.str "hello")]) =
      { status := 200, body := Json.obj [("text", Json.str "world")] } :=
  generate_success_path (fun _ _ _ => Except.ok "world") { api_key := "k" }
    "hello" "world" rfl

/-- Claim C1 counterexample: an exception whose stringified message is the
empty string (as Python produces for an exception constructed with no
arguments) is returned as an error field holding the empty string, so the
message in the 500 body is not always non-empty as the claim states. -/
theorem generate_empty_error_message_counterexample :
    post_generate (fun _ _ _ => Except.error "") { api_key := "k" }
        (Json.obj [("prompt", Json.str "hi")]) =
      { status := 500, body := Json.obj [("error", Json.str "")] } ∧
    ("" : String).isEmpty = true :=
  ⟨rfl, rfl⟩

/-- Claim C1 (amended): every exception raised during model construction,
invocation or text extraction is caught and returned as HTTP 500 with body
exactly the object with error field str(e) (possibly empty); the body
never contains a text field, and the error and text variants never occur
together. -/
theorem generate_error_path_shape (gen : Upstream) (client : GenaiClient) (p e : String)
    (h : gen client "gemini-2.5-flash" p = Except.error e) :
    post_generate gen client (Json.obj [("prompt", Json.str p)]) =
      { status := 500, body := Json.obj [("error", Json.str e)] } ∧
    jlookup (post_generate gen client (Json.obj [("prompt", Json.str p)])).body "text"
      = none ∧
    jlookup (post_generate gen client (Json.obj [("prompt", Json.str p)])).body "error"
      = some (Json.str e) := by
  have hmain : post_generate gen client (Json.obj [("prompt", Json.str p)]) =
      { status := 500, body := Json.obj [("error", Json.str e)] } := by
    simp [post_generate, validate_prompt_request, lookupField,
          generate_content_endpoint, h]
  refine ⟨hmain, ?_, ?_⟩ <;> rw [hmain] <;> rfl

/-- Witness for amended C1 at a raised exception with message boom. -/
theorem generate_error_path_shape_witness :
    post_generate (fun _ _ _ => Except.error "boom") { api_key := "k" }
        (Json.obj [("prompt", Json.str "hi")]) =
      { status := 500, body := Json.obj [("error", Json.str "boom")] } :=
  (generate_error_path_shape (fun _ _ _ => Except.error "boom") { api_key := "k" }
    "hi" "boom" rfl).1

/-- Claim C5: with GEMINI_API_KEY unset, module initialisation aborts with
the ValueError message and produces no app (hence no listening server);
with a nonempty key, the client is configured with exactly that key, and
no request dispatch ever changes the configured app state afterwards. -/
theorem startup_fail_fast_and_configure_once :
    module_init none = Except.error api_key_error_message ∧
    ∀ k : String, k ≠ "" →
      module_init (some k) = Except.ok { client := { api_key := k } } ∧
      ∀ (gen : Upstream) (r : Request),
        (dispatch gen { client := { api_key := k } } r).2 =
          { client := { api_key := k } } := by
  refine ⟨rfl, fun k hk => ⟨?_, fun gen r => ?_⟩⟩
  · simp [module_init, truthy_some_of_ne hk]
  · cases r <;> rfl

/-- Witness for C5 at the key value secret. -/
theorem startup_configure_once_witness :
    module_init (some "secret") = Except.ok { client := { api_key := "secret" } } ∧
    (dispatch (fun _ _ _ => Except.ok "w") { client := { api_key := "secret" } }
        Request.root).2 = { client := { api_key := "secret" } } := by
  have h := startup_fail_fast_and_configure_once.2 "secret" (by decide)
  exact ⟨h.1, h.2 _ _⟩

/-- Claim C9: GEMINI_API_KEY set to the empty string aborts startup with
the same fatal configuration error as when the variable is unset, because
the check treats any falsy value as absent. -/
theorem empty_api_key_rejected :
    module_init (some "") = Except.error api_key_error_message ∧
    module_init (some "") = module_init none :=
  ⟨rfl, rfl⟩

end RhinoBackend
